import Mathlib

/-!
Verification of the CHD prediction app (`src/app.py`).

The app has two pieces of logic: a model loader (`load_model`, memoized by
the `st.cache_resource` decorator) and an inference step that builds a
one-row record from six form fields and calls the loaded model's
`predict` / `predict_proba` operations inside a try/except block.

Python strings are sequences of code points; they are embedded here as
`List Nat` of code points. The Python string methods the app uses
(`str.strip`, `str.lower`) are embedded on the ASCII range the app
actually handles.
-/

namespace CHD

/-- A Python string as its list of code points. -/
abbrev PyStr := List Nat

/-- Code points of a Lean string literal, to write the string constants
of `src/app.py` readably. -/
def enc (s : String) : PyStr := s.data.map Char.toNat

/-- Python `str.lower` on one code point, for the ASCII inputs this app
handles: an uppercase ASCII letter (65-90) is shifted down by 32 to its
lowercase form, anything else is unchanged. -/
def lowerChar (c : Nat) : Nat :=
  if 65 ≤ c ∧ c ≤ 90 then c + 32 else c

/-- The whitespace code points Python `str.strip` removes (ASCII
subset: space, tab, newline, carriage return). -/
def isSpaceChar (c : Nat) : Bool :=
  c = 32 || c = 9 || c = 10 || c = 13

/-- Python `str.lower` over a whole string. -/
def lowerStr (s : PyStr) : PyStr := s.map lowerChar

/-- Python `str.strip`: drop whitespace from both ends. -/
def stripStr (s : PyStr) : PyStr :=
  (((s.dropWhile isSpaceChar).reverse).dropWhile isSpaceChar).reverse

/-- The pandas `.replace({"present": "present", "absent": "absent"})`
step of `clean_famhist` (src/app.py line 22): it maps `"present"` to
`"present"` and `"absent"` to `"absent"` and leaves every other value
untouched, so it is an identity pass-through and rejects nothing. -/
def replaceFamhist (s : PyStr) : PyStr :=
  if s = enc "present" then enc "present"
  else if s = enc "absent" then enc "absent"
  else s

/-- The per-value normalization performed by `clean_famhist` on the
famhist column (src/app.py lines 18-23):
`.str.strip().str.lower().replace(...)`. -/
def normalizeFamhist (s : PyStr) : PyStr :=
  replaceFamhist (lowerStr (stripStr s))

end CHD

namespace CHD

theorem lowerChar_idem (c : Nat) : lowerChar (lowerChar c) = lowerChar c := by
  simp only [lowerChar]
  split
  case isTrue h => rw [if_neg (by omega)]
  case isFalse h => rfl

theorem isSpaceChar_lowerChar (c : Nat) :
    isSpaceChar (lowerChar c) = isSpaceChar c := by
  simp only [lowerChar]
  split
  case isTrue h =>
    have h1 : isSpaceChar (c + 32) = false := by
      simp only [isSpaceChar, Bool.or_eq_false_iff, decide_eq_false_iff_not]
      omega
    have h2 : isSpaceChar c = false := by
      simp only [isSpaceChar, Bool.or_eq_false_iff, decide_eq_false_iff_not]
      omega
    rw [h1, h2]
  case isFalse h => rfl

theorem lowerStr_idem (s : PyStr) : lowerStr (lowerStr s) = lowerStr s := by
  unfold lowerStr
  rw [List.map_map]
  exact List.map_congr_left fun c _ => lowerChar_idem c

theorem dropWhile_map_comm (p : Nat → Bool) (f : Nat → Nat)
    (hp : ∀ c, p (f c) = p c) (s : List Nat) :
    (s.map f).dropWhile p = (s.dropWhile p).map f := by
  induction s with
  | nil => rfl
  | cons a t ih =>
    simp only [List.map_cons, List.dropWhile_cons, hp a]
    split <;> simp [ih]

theorem stripStr_lowerStr (s : PyStr) :
    stripStr (lowerStr s) = lowerStr (stripStr s) := by
  unfold stripStr lowerStr
  rw [dropWhile_map_comm _ _ isSpaceChar_lowerChar s, ← List.map_reverse,
    dropWhile_map_comm _ _ isSpaceChar_lowerChar, ← List.map_reverse]

/-- Unfolding: `stripStr` is `List.rdropWhile` after `List.dropWhile`. -/
theorem stripStr_eq (s : PyStr) :
    stripStr s = List.rdropWhile isSpaceChar (s.dropWhile isSpaceChar) := rfl

theorem dropWhile_rdropWhile_self (p : Nat → Bool) (l : List Nat)
    (h : l.dropWhile p = l) :
    (l.rdropWhile p).dropWhile p = l.rdropWhile p := by
  rw [List.dropWhile_eq_self_iff]
  intro hl
  obtain ⟨t, ht⟩ := List.rdropWhile_prefix p l
  have hlen : 0 < l.length := by
    rw [← ht, List.length_append]
    omega
  have hget : (l.rdropWhile p).get ⟨0, hl⟩ = l.get ⟨0, hlen⟩ := by
    have h2 := List.get_of_eq ht.symm ⟨0, hlen⟩
    rw [h2]
    simp only [List.get_eq_getElem, List.getElem_append_left hl]
  rw [hget]
  exact List.dropWhile_eq_self_iff.mp h hlen

theorem stripStr_idem (s : PyStr) : stripStr (stripStr s) = stripStr s := by
  rw [stripStr_eq (stripStr s), stripStr_eq s,
    dropWhile_rdropWhile_self _ _ (List.dropWhile_idempotent _ _)]
  exact List.rdropWhile_idempotent _ _

theorem replaceFamhist_eq_self (s : PyStr) : replaceFamhist s = s := by
  unfold replaceFamhist
  split
  case isTrue h => exact h.symm
  case isFalse h =>
    split
    case isTrue h2 => exact h2.symm
    case isFalse h2 => rfl

theorem normalizeFamhist_eq (s : PyStr) :
    normalizeFamhist s = lowerStr (stripStr s) := by
  unfold normalizeFamhist
  rw [replaceFamhist_eq_self]

theorem normalizeFamhist_idem (s : PyStr) :
    normalizeFamhist (normalizeFamhist s) = normalizeFamhist s := by
  rw [normalizeFamhist_eq s, normalizeFamhist_eq (lowerStr (stripStr s)),
    stripStr_lowerStr, stripStr_idem, lowerStr_idem]

end CHD

namespace CHD

/-! ## Data model and operations of `src/app.py` -/

/-- The single-row input record the app builds (the one-row pandas
DataFrame of src/app.py lines 122-129), with the fixed column order
`[sbp, ldl, adiposity, famhist, obesity, age]`. Integer widgets give
integers, float widgets rationals (the idealization of the app's
floats), famhist a string. -/
structure PatientRecord where
  sbp : ℤ
  ldl : ℚ
  adiposity : ℤ
  famhist : PyStr
  obesity : ℚ
  age : ℤ

/-- The two-class probability vector `model.predict_proba(input_data)[0]`:
index 0 is the absent class (CHD = 0), index 1 the present class
(CHD = 1), per the two-class ordering the app relies on at line 138. -/
structure ProbaVector where
  p0 : ℚ
  p1 : ℚ

/-- The expression `proba[1]` — the probability of CHD, src/app.py line 138. -/
def proba_chd (v : ProbaVector) : ℚ := v.p1

/-- The expression `max(proba)` — the confidence metric, src/app.py line 159. -/
def confidence (v : ProbaVector) : ℚ := max v.p0 v.p1

/-- The loaded model handle: its `predict` and `predict_proba`
operations, each of which may raise (an `Except.error` carrying the
Python exception message). The artifact's internals are opaque, so the
handle is just this capability pair. -/
structure ModelHandle where
  predict : PatientRecord → Except String ℤ
  predict_proba : PatientRecord → Except String ProbaVector

/-- The selectbox options for famhist, src/app.py line 112: every
submitted famhist value is one of these. -/
def famhist_options : List PyStr := [enc "Present", enc "Absent"]

/-- The record `input_data` built on submission (src/app.py lines
122-129). The famhist field carries `famhist.lower()` (line 126); the
other five fields are passed through unchanged. -/
def input_data (sbp : ℤ) (ldl : ℚ) (adiposity : ℤ) (famhist : PyStr)
    (obesity : ℚ) (age : ℤ) : PatientRecord :=
  ⟨sbp, ldl, adiposity, lowerStr famhist, obesity, age⟩

/-- One interaction with the loaded model, recorded so that the side
effects of the prediction section are visible in the embedding. -/
inductive ModelCall where
  | predictCall (r : PatientRecord)
  | probaCall (r : PatientRecord)

/-- What the prediction section displays: either the results block
(lines 141-192, showing the label from `prediction`, `proba_chd` and
the confidence) or the error report of the except branch (line 195)
carrying the exception message. -/
inductive Outcome where
  | results (prediction : ℤ) (chd : ℚ) (conf : ℚ)
  | failure (cause : String)

/-- The prediction section (src/app.py lines 134-195): inside a
try/except block, `model.predict(input_data)[0]` then
`model.predict_proba(input_data)[0]` are called; `proba_chd = proba[1]`;
on any exception the error branch reports the cause and nothing else
runs. The second component is the trace of model interactions: if
`predict` raises, `predict_proba` is never reached. The function is
total: every input yields an `Outcome`, so the caller never sees an
unhandled exception. -/
def run_prediction (model : ModelHandle) (r : PatientRecord) :
    Outcome × List ModelCall :=
  match model.predict r with
  | .error e => (.failure e, [.predictCall r])
  | .ok prediction =>
    match model.predict_proba r with
    | .error e => (.failure e, [.predictCall r, .probaCall r])
    | .ok proba =>
        (.results prediction (proba_chd proba) (confidence proba),
         [.predictCall r, .probaCall r])

/-- The environment `load_model` runs in: whether `os.path.exists`
finds the artifact file, and what `joblib.load` would return — a
handle, or an `Except.error` carrying the raised exception. -/
structure Environment where
  pathExists : Bool
  joblibLoad : Except String ModelHandle

/-- The fixed artifact path `"Model3.pkl"` (src/app.py line 31). -/
def model_path : PyStr := enc "Model3.pkl"

/-- What `load_model` produces: a usable handle, or one of the two
no-handle failures — the missing-file report of lines 32-34
(`st.error` naming the path, then `return None`) or the except branch
of lines 37-39 (`st.error` carrying the exception, then `return None`). -/
inductive LoadResult where
  | ok (m : ModelHandle)
  | artifactNotFound (path : PyStr)
  | artifactCorrupt (cause : String)

/-- The loader `load_model` (src/app.py lines 28-39): checks existence first and
reports the missing file without attempting a read; otherwise
deserializes, wrapping any raised exception as the corrupt-artifact
report. Total by construction: every environment yields a `LoadResult`,
no exception escapes the try/except. -/
def load_model (env : Environment) : LoadResult :=
  if env.pathExists = false then .artifactNotFound model_path
  else
    match env.joblibLoad with
    | .ok m => .ok m
    | .error e => .artifactCorrupt e

/-- Modelled from the spec: the memoization performed by the
`st.cache_resource` decorator on `load_model` (src/app.py line 27).
The decorator itself lives in the streamlit library, outside this
repository; the spec describes it as a compute-once cache ("the handle
is computed at most once per process lifetime; all callers receive the
same instance"). The state is the cached result; a call returns the
result, the new state, and how many times the artifact file was read
during the call (`joblib.load` reads it exactly when the existence
check passes; a cache hit runs no loader code at all). -/
def cached_load_model (env : Environment) (cache : Option LoadResult) :
    LoadResult × Option LoadResult × Nat :=
  match cache with
  | some v => (v, some v, 0)
  | none =>
      (load_model env, some (load_model env),
       if env.pathExists then 1 else 0)

/-- The DataFrame a pipeline step sees: six named columns. -/
structure DataFrame where
  sbp : List ℤ
  ldl : List ℚ
  adiposity : List ℤ
  famhist : List PyStr
  obesity : List ℚ
  age : List ℤ

/-- The function `clean_famhist` (src/app.py lines 15-24): `X = X.copy()` then the
famhist column is replaced by its per-value
`.str.strip().str.lower().replace(...)` normalization; every other
column is carried over untouched. The copy is embedded as returning a
new structure, the argument being left untouched by construction. -/
def clean_famhist (X : DataFrame) : DataFrame :=
  { X with famhist := X.famhist.map normalizeFamhist }

/-- A casing/whitespace variant of "present" or "absent": stripping
and lowercasing lands in the valid category set. -/
def isFamhistVariant (s : PyStr) : Prop :=
  lowerStr (stripStr s) = enc "present" ∨ lowerStr (stripStr s) = enc "absent"

instance (s : PyStr) : Decidable (isFamhistVariant s) := by
  unfold isFamhistVariant
  infer_instance

end CHD

namespace CHD

/-! ## Claims -/

/-- C1: for every prediction request on a loaded handle whose two
operations succeed, the displayed result takes `probabilityOfDisease`
from index 1 of the probability vector (the present class in the
ordering 0 = absent, 1 = present) and `confidence` as the maximum entry
of that same vector. -/
theorem C1_proba_chd_and_confidence (model : ModelHandle)
    (r : PatientRecord) (pred : ℤ) (v : ProbaVector)
    (hp : model.predict r = .ok pred)
    (hq : model.predict_proba r = .ok v) :
    (run_prediction model r).1 = .results pred v.p1 (max v.p0 v.p1) := by
  unfold run_prediction
  rw [hp, hq]
  rfl

/-- Witness for C1 at a concrete handle and record. -/
theorem C1_proba_chd_and_confidence_witness :
    (run_prediction ⟨fun _ => .ok 1, fun _ => .ok ⟨0, 1⟩⟩
        (input_data 138 440 2326 (enc "Present") 2373 43)).1
      = .results 1 (1 : ℚ) (max (0 : ℚ) 1) :=
  C1_proba_chd_and_confidence _ _ 1 ⟨0, 1⟩ rfl rfl

/-- C2: every submitted famhist value comes from the selectbox options
`["Present", "Absent"]`; for each of them the record built by
`input_data` carries exactly the strip-lower normalization of the
input (lowercasing alone already agrees with it on these values). -/
theorem C2_famhist_normalized (sbp : ℤ) (ldl : ℚ) (adiposity : ℤ)
    (famhist : PyStr) (obesity : ℚ) (age : ℤ)
    (h : famhist ∈ famhist_options) :
    (input_data sbp ldl adiposity famhist obesity age).famhist
      = stripStr (lowerStr famhist) ∧
    (input_data sbp ldl adiposity famhist obesity age).famhist
      = lowerStr (stripStr famhist) := by
  simp only [famhist_options, List.mem_cons, List.mem_singleton,
    List.not_mem_nil, or_false] at h
  rcases h with h | h <;> subst h <;> exact ⟨rfl, rfl⟩

/-- Witness for C2 at the option "Present". -/
theorem C2_famhist_normalized_witness :
    (input_data 138 440 2326 (enc "Present") 2373 43).famhist
      = stripStr (lowerStr (enc "Present")) ∧
    (input_data 138 440 2326 (enc "Present") 2373 43).famhist
      = lowerStr (stripStr (enc "Present")) :=
  C2_famhist_normalized 138 440 2326 (enc "Present") 2373 43 (by decide)

/-- C6: when the scoring succeeds and returns a two-class vector of
nonnegative entries summing to 1, the confidence the app displays is
the maximum entry and lies in [1/2, 1]; hence every successful
prediction result has confidence at least 1/2. -/
theorem C6_confidence_bounds (model : ModelHandle)
    (r : PatientRecord) (pred : ℤ) (v : ProbaVector)
    (hp : model.predict r = .ok pred)
    (hq : model.predict_proba r = .ok v)
    (h0 : 0 ≤ v.p0) (h1 : 0 ≤ v.p1) (hsum : v.p0 + v.p1 = 1) :
    (run_prediction model r).1 = .results pred (proba_chd v) (confidence v)
      ∧ 1 / 2 ≤ confidence v ∧ confidence v ≤ 1 := by
  refine ⟨?_, ?_, ?_⟩
  · unfold run_prediction
    rw [hp, hq]
  · unfold confidence
    rcases le_total v.p0 v.p1 with h | h
    · rw [max_eq_right h]
      linarith
    · rw [max_eq_left h]
      linarith
  · unfold confidence
    exact max_le (by linarith) (by linarith)

/-- Witness for C6 at the vector (0, 1). -/
theorem C6_confidence_bounds_witness :
    (run_prediction ⟨fun _ => .ok 1, fun _ => .ok ⟨0, 1⟩⟩
        (input_data 138 440 2326 (enc "Present") 2373 43)).1
      = .results 1 (proba_chd ⟨0, 1⟩) (confidence ⟨0, 1⟩)
      ∧ 1 / 2 ≤ confidence ⟨0, 1⟩ ∧ confidence ⟨0, 1⟩ ≤ 1 :=
  C6_confidence_bounds _ _ 1 ⟨0, 1⟩ rfl rfl (by norm_num) (by norm_num)
    (by norm_num)

/-- C8: the famhist normalization of `clean_famhist` is idempotent on
every casing/whitespace variant of "present" or "absent" (it is in
fact idempotent on all strings, see `normalizeFamhist_idem`). -/
theorem C8_normalize_idempotent (s : PyStr) (h : isFamhistVariant s) :
    normalizeFamhist (normalizeFamhist s) = normalizeFamhist s :=
  normalizeFamhist_idem s

/-- Witness for C8 at the variant "  Present ". -/
theorem C8_normalize_idempotent_witness :
    isFamhistVariant (enc "  Present ")
      ∧ normalizeFamhist (normalizeFamhist (enc "  Present "))
          = normalizeFamhist (enc "  Present ") :=
  ⟨by decide, C8_normalize_idempotent (enc "  Present ") (by decide)⟩

end CHD

namespace CHD

/-- The trace of the prediction section is either both model calls (in
order) or, when `predict` raises, just the one `predict` call. -/
theorem run_prediction_trace (model : ModelHandle) (r : PatientRecord) :
    (run_prediction model r).2 = [.predictCall r, .probaCall r]
      ∨ (run_prediction model r).2 = [.predictCall r] := by
  unfold run_prediction
  cases model.predict r with
  | error e => exact Or.inr rfl
  | ok p =>
    cases model.predict_proba r with
    | error e => exact Or.inl rfl
    | ok v => exact Or.inl rfl

/-- The first model interaction of the prediction section is always
the `predict` call on the built record. -/
theorem run_prediction_trace_head (model : ModelHandle) (r : PatientRecord) :
    (run_prediction model r).2.head? = some (.predictCall r) := by
  rcases run_prediction_trace model r with h | h <;> rw [h] <;> rfl

/-- C3 counterexample: with famhist "unknown" the code performs no
category validation at all — both model operations are reached (the
trace holds the `predict` and `predict_proba` calls) and the outcome
is an ordinary results block, not any invalid-category failure. -/
theorem C3_counterexample :
    (run_prediction ⟨fun _ => .ok 0, fun _ => .ok ⟨1, 0⟩⟩
        (input_data 138 440 2326 (enc "unknown") 2373 43)).2
      = [ModelCall.predictCall (input_data 138 440 2326 (enc "unknown") 2373 43),
         ModelCall.probaCall (input_data 138 440 2326 (enc "unknown") 2373 43)]
    ∧ (run_prediction ⟨fun _ => .ok 0, fun _ => .ok ⟨1, 0⟩⟩
          (input_data 138 440 2326 (enc "unknown") 2373 43)).1
        = .results 0 (proba_chd ⟨1, 0⟩) (confidence ⟨1, 0⟩) :=
  ⟨rfl, rfl⟩

/-- C3 amended: the code has no InvalidCategory failure. A famhist
value that is not a casing/whitespace variant of "present"/"absent" is
simply lowercased into the record and the model is invoked on it like
on any other input (the first model interaction always happens);
invalid values are prevented only upstream, by the selectbox offering
exactly the options Present and Absent. -/
theorem C3_no_category_validation (model : ModelHandle) (sbp : ℤ)
    (ldl : ℚ) (adiposity : ℤ) (famhist : PyStr) (obesity : ℚ) (age : ℤ)
    (h : ¬ isFamhistVariant famhist) :
    (input_data sbp ldl adiposity famhist obesity age).famhist
      = lowerStr famhist
    ∧ (run_prediction model
          (input_data sbp ldl adiposity famhist obesity age)).2.head?
        = some (.predictCall (input_data sbp ldl adiposity famhist obesity age)) :=
  ⟨rfl, run_prediction_trace_head model _⟩

/-- Witness for the amended C3 at famhist "unknown". -/
theorem C3_no_category_validation_witness :
    (input_data 138 440 2326 (enc "unknown") 2373 43).famhist
      = lowerStr (enc "unknown")
    ∧ (run_prediction ⟨fun _ => .ok 0, fun _ => .ok ⟨1, 0⟩⟩
          (input_data 138 440 2326 (enc "unknown") 2373 43)).2.head?
        = some (.predictCall (input_data 138 440 2326 (enc "unknown") 2373 43)) :=
  C3_no_category_validation _ 138 440 2326 (enc "unknown") 2373 43 (by decide)

/-- C4: the loader checks existence and yields the missing-artifact
failure (no handle) when the file is absent; when present, a
deserialization error is wrapped as the corrupt-artifact failure
carrying the underlying cause; a handle comes back exactly on
successful deserialization. `load_model` is total, so no environment
makes it raise. -/
theorem C4_load_model_behavior (env : Environment) :
    (env.pathExists = false → load_model env = .artifactNotFound model_path)
    ∧ (∀ e, env.pathExists = true → env.joblibLoad = .error e →
        load_model env = .artifactCorrupt e)
    ∧ (∀ m, env.pathExists = true → env.joblibLoad = .ok m →
        load_model env = .ok m)
    ∧ (∀ m, load_model env = .ok m →
        env.pathExists = true ∧ env.joblibLoad = .ok m) := by
  obtain ⟨pe, jl⟩ := env
  cases pe <;> cases jl <;> simp [load_model]

/-- Witness for C4 across the three environments. -/
theorem C4_load_model_behavior_witness :
    load_model ⟨false, .error "boom"⟩ = .artifactNotFound model_path
    ∧ load_model ⟨true, .error "boom"⟩ = .artifactCorrupt "boom"
    ∧ load_model ⟨true, .ok ⟨fun _ => .ok 0, fun _ => .ok ⟨1, 0⟩⟩⟩
        = .ok ⟨fun _ => .ok 0, fun _ => .ok ⟨1, 0⟩⟩ :=
  ⟨(C4_load_model_behavior ⟨false, .error "boom"⟩).1 rfl,
   (C4_load_model_behavior ⟨true, .error "boom"⟩).2.1 "boom" rfl rfl,
   (C4_load_model_behavior ⟨true, .ok ⟨fun _ => .ok 0, fun _ => .ok ⟨1, 0⟩⟩⟩).2.2.1
      ⟨fun _ => .ok 0, fun _ => .ok ⟨1, 0⟩⟩ rfl rfl⟩

/-- C5: under the compute-once cache of `st.cache_resource`, a second
sequential call returns the very value the first call cached (the same
instance, since the loader ran once and its one result is what both
calls hand back), and across the two calls the artifact file is read
at most once. -/
theorem C5_loader_memoized (env : Environment) :
    (cached_load_model env (cached_load_model env none).2.1).1
      = (cached_load_model env none).1
    ∧ (cached_load_model env none).1 = load_model env
    ∧ (cached_load_model env none).2.2
        + (cached_load_model env (cached_load_model env none).2.1).2.2 ≤ 1 := by
  refine ⟨rfl, rfl, ?_⟩
  simp only [cached_load_model]
  cases env.pathExists <;> simp

/-- C7: if either model operation raises during prediction, the
displayed outcome is the failure report carrying that original cause,
no results block is shown (the request is aborted), and — the function
being total — the caller never crashes. -/
theorem C7_prediction_failure (model : ModelHandle) (r : PatientRecord)
    (e : String)
    (h : model.predict r = .error e
      ∨ ∃ p, model.predict r = .ok p ∧ model.predict_proba r = .error e) :
    (run_prediction model r).1 = .failure e
    ∧ ∀ pred chd conf, (run_prediction model r).1 ≠ .results pred chd conf := by
  have hf : (run_prediction model r).1 = .failure e := by
    unfold run_prediction
    rcases h with h | ⟨p, hp, hq⟩
    · rw [h]
    · rw [hp, hq]
  refine ⟨hf, fun pred chd conf hcontra => ?_⟩
  rw [hf] at hcontra
  exact Outcome.noConfusion hcontra

/-- Witness for C7: a handle whose probability scoring raises. -/
theorem C7_prediction_failure_witness :
    (run_prediction ⟨fun _ => .ok 0, fun _ => .error "boom"⟩
        (input_data 138 440 2326 (enc "Present") 2373 43)).1 = .failure "boom"
    ∧ ∀ pred chd conf,
        (run_prediction ⟨fun _ => .ok 0, fun _ => .error "boom"⟩
            (input_data 138 440 2326 (enc "Present") 2373 43)).1
          ≠ .results pred chd conf :=
  C7_prediction_failure _ _ "boom" (Or.inr ⟨0, rfl, rfl⟩)

/-- C9: prediction is deterministic in (handle, record) — equal field
values give the very same outcome and trace — and the only effects of
the prediction section are the model interactions on the built record:
the `predict` call followed by at most one probability-scoring call. -/
theorem C9_deterministic_no_extra_effects (model : ModelHandle)
    (sbp₁ sbp₂ : ℤ) (ldl₁ ldl₂ : ℚ) (adiposity₁ adiposity₂ : ℤ)
    (famhist₁ famhist₂ : PyStr) (obesity₁ obesity₂ : ℚ) (age₁ age₂ : ℤ)
    (h1 : sbp₁ = sbp₂) (h2 : ldl₁ = ldl₂) (h3 : adiposity₁ = adiposity₂)
    (h4 : famhist₁ = famhist₂) (h5 : obesity₁ = obesity₂) (h6 : age₁ = age₂) :
    run_prediction model (input_data sbp₁ ldl₁ adiposity₁ famhist₁ obesity₁ age₁)
      = run_prediction model (input_data sbp₂ ldl₂ adiposity₂ famhist₂ obesity₂ age₂)
    ∧ ((run_prediction model
          (input_data sbp₁ ldl₁ adiposity₁ famhist₁ obesity₁ age₁)).2
        = [.predictCall (input_data sbp₁ ldl₁ adiposity₁ famhist₁ obesity₁ age₁),
           .probaCall (input_data sbp₁ ldl₁ adiposity₁ famhist₁ obesity₁ age₁)]
      ∨ (run_prediction model
          (input_data sbp₁ ldl₁ adiposity₁ famhist₁ obesity₁ age₁)).2
        = [.predictCall (input_data sbp₁ ldl₁ adiposity₁ famhist₁ obesity₁ age₁)]) := by
  subst h1 h2 h3 h4 h5 h6
  exact ⟨rfl, run_prediction_trace model _⟩

/-- Witness for C9 at a concrete handle and equal concrete inputs. -/
theorem C9_deterministic_no_extra_effects_witness :
    run_prediction ⟨fun _ => .ok 1, fun _ => .ok ⟨0, 1⟩⟩
        (input_data 138 440 2326 (enc "Absent") 2373 43)
      = run_prediction ⟨fun _ => .ok 1, fun _ => .ok ⟨0, 1⟩⟩
        (input_data 138 440 2326 (enc "Absent") 2373 43)
    ∧ ((run_prediction ⟨fun _ => .ok 1, fun _ => .ok ⟨0, 1⟩⟩
          (input_data 138 440 2326 (enc "Absent") 2373 43)).2
        = [.predictCall (input_data 138 440 2326 (enc "Absent") 2373 43),
           .probaCall (input_data 138 440 2326 (enc "Absent") 2373 43)]
      ∨ (run_prediction ⟨fun _ => .ok 1, fun _ => .ok ⟨0, 1⟩⟩
          (input_data 138 440 2326 (enc "Absent") 2373 43)).2
        = [.predictCall (input_data 138 440 2326 (enc "Absent") 2373 43)]) :=
  C9_deterministic_no_extra_effects _ 138 138 440 440 2326 2326
    (enc "Absent") (enc "Absent") 2373 2373 43 43 rfl rfl rfl rfl rfl rfl

/-- C10: `clean_famhist` copies its argument — every column other than
famhist comes back exactly as given and the input frame is untouched
(the embedding returns a fresh structure) — and on the famhist column
it is the total per-value strip-then-lower map: values outside
{"present","absent"} pass through without rejection (the `.replace`
step is an identity), e.g. " Unknown " becomes "unknown". -/
theorem C10_clean_famhist_frame (X : DataFrame) :
    (clean_famhist X).sbp = X.sbp
    ∧ (clean_famhist X).ldl = X.ldl
    ∧ (clean_famhist X).adiposity = X.adiposity
    ∧ (clean_famhist X).obesity = X.obesity
    ∧ (clean_famhist X).age = X.age
    ∧ (clean_famhist X).famhist = X.famhist.map normalizeFamhist
    ∧ (∀ s, normalizeFamhist s = lowerStr (stripStr s))
    ∧ normalizeFamhist (enc " Unknown ") = enc "unknown" :=
  ⟨rfl, rfl, rfl, rfl, rfl, rfl, normalizeFamhist_eq, by decide⟩

end CHD
